import Mathlib

/-!
Weather form handler (`src/script.js`).

A shallow embedding of the browser script: the values it reads from the two JSON
payloads, the pure helpers (`averageNextSixHours`, `parseDateWithTimezone`,
`getSeasonAdvice`, `populateWeatherCard`) and the submit handler with its two
requests, followed by the properties proved about them.

Conventions of the embedding.

* A JavaScript number is an exact rational, or `NaN`; the infinities and the rounding of
  binary floating point are not represented.  Every finite double is a rational and the
  comparisons of the script agree with the rational ones.
* The host functions the script calls (`Date`, `Intl`, `Number` on a string, `fetch`) are
  fields of `Platform` and of `Network`; nothing is assumed about their values.  The `Date`
  and `Intl` functions are total: the `RangeError` of `Intl` on a time zone identifier it
  does not know is not represented.
* `await` is sequential composition; a rejected promise or a `throw` is `Except.error`.
-/

namespace Weather

/-! ## Values -/

/-- The JavaScript values that reach the script from a JSON payload or from its own
placeholders.  Arrays and objects as leaf values are not represented. -/
inductive JSValue where
  | undefined
  | null
  | bool (b : Bool)
  | number (q : ℚ)
  | nan
  | string (s : String)
  deriving DecidableEq, Repr

/-- A JavaScript number: `none` is `NaN`. -/
abbrev JSNumber := Option ℚ

/-- A `Date` object, by its time value in milliseconds: `none` is `Invalid Date`. -/
abbrev JSDate := Option Int

/-- The host environment of one synchronous run of the script. -/
structure Platform where
  /-- The reading of `new Date()`; the clock does not advance within one call. -/
  clock : Int
  /-- The time value of `new Date(text)`. -/
  dateParse : String → JSDate
  /-- The text `year-month-dayThour:minute:00` assembled from
  `Intl.DateTimeFormat("en-US", ...).formatToParts(date)` in the given time zone. -/
  formatInZone : String → Int → String
  /-- The value of `Number(text)` on a string. -/
  stringToNumber : String → JSNumber
  /-- The value of `getMonth()` on `new Date(now.toLocaleString("en-US", { timeZone }))`
  for the given time zone (`none` is `NaN`). -/
  zonedMonth : String → Option Int
  /-- The value of `now.getMonth()` on the clock reading itself. -/
  clockMonth : Int

namespace JSValue

/-- JavaScript truthiness (`ToBoolean`). -/
def truthy : JSValue → Bool
  | undefined => false
  | null => false
  | bool b => b
  | number q => decide (q ≠ 0)
  | nan => false
  | string s => decide (s ≠ "")

/-- The operator `a || b`. -/
def or (a b : JSValue) : JSValue := if a.truthy then a else b

/-- The operator `a ?? b`. -/
def nullish (a b : JSValue) : JSValue :=
  match a with
  | undefined => b
  | null => b
  | v => v

/-- The conversion `Number(v)`. -/
def toNumber (P : Platform) : JSValue → JSNumber
  | undefined => none
  | null => some 0
  | bool b => some (if b then 1 else 0)
  | number q => some q
  | nan => none
  | string s => P.stringToNumber s

/-- A number as a value. -/
def ofNumber : JSNumber → JSValue
  | none => nan
  | some q => number q

/-- The test `Number.isFinite(v)`: a number that is not `NaN`. -/
def isFinite : JSValue → Bool
  | number _ => true
  | _ => false

end JSValue

open JSValue

/-- Addition of two numbers; `NaN` is absorbing. -/
def numAdd (a b : JSNumber) : JSNumber :=
  match a, b with
  | some x, some y => some (x + y)
  | _, _ => none

/-- Division of a number by a positive array length. -/
def numDiv (a : JSNumber) (n : Nat) : JSNumber :=
  match a with
  | some x => some (x / (n : ℚ))
  | none => none

/-- The integer `Math.round(q)` of a rational: halves go towards positive infinity. -/
def roundHalfUp (q : ℚ) : Int := ⌊q + 1 / 2⌋

/-- The function `Math.round` on numbers. -/
def mathRound : JSNumber → JSNumber
  | some q => some ((roundHalfUp q : Int) : ℚ)
  | none => none

/-- The comparison `a >= b` of two dates: false as soon as one of them is invalid. -/
def dateGe (a b : JSDate) : Bool :=
  match a, b with
  | some x, some y => decide (y ≤ x)
  | _, _ => false

/-! ## Averaging the forecast window -/

/-- The function `parseDateWithTimezone` (lines 136-157). -/
def parseDateWithTimezone (P : Platform) (isoString : String) (timezone : String) : JSDate :=
  match P.dateParse (isoString ++ ":00") with
  | none => some P.clock
  | some date => P.dateParse (P.formatInZone timezone date)

/-- The `for` loop of `averageNextSixHours` (lines 118-126): the list is the part of `times`
from index `i` on, `offsets` the array built so far. -/
def averageNextSixHours.loop (P : Platform) (now : JSDate) (probabilities : List JSValue)
    (timezone : String) : List String → Nat → List JSValue → List JSValue
  | [], _, offsets => offsets
  | t :: rest, i, offsets =>
    let parsed := parseDateWithTimezone P t timezone
    let offsets1 :=
      if dateGe parsed now then offsets ++ [probabilities.getD i JSValue.undefined] else offsets
    if offsets1.length = 6 then offsets1
    else averageNextSixHours.loop P now probabilities timezone rest (i + 1) offsets1

/-- The reducer of line 132: `total + Number(value || 0)`. -/
def sumStep (P : Platform) (total : JSNumber) (value : JSValue) : JSNumber :=
  numAdd total (JSValue.toNumber P (JSValue.or value (JSValue.number 0)))

/-- The function `averageNextSixHours` (lines 114-134). -/
def averageNextSixHours (P : Platform) (times : List String) (probabilities : List JSValue)
    (timezone : String) : JSValue :=
  let now : JSDate := some P.clock
  let offsets := averageNextSixHours.loop P now probabilities timezone times 0 []
  if offsets.length = 0 then
    JSValue.nullish (probabilities.getD (probabilities.length - 1) JSValue.undefined)
      (JSValue.number 0)
  else
    let sum := offsets.foldl (sumStep P) (some 0)
    JSValue.ofNumber (mathRound (numDiv sum offsets.length))

/-! ## The advisory text -/

/-- The comparison `lo <= month && month <= hi` on a month that may be `NaN`. -/
def monthBetween (month : Option Int) (lo hi : Int) : Bool :=
  match month with
  | some m => decide (lo ≤ m) && decide (m ≤ hi)
  | none => false

/-- The comparison `month === k` on a month that may be `NaN`. -/
def monthIs (month : Option Int) (k : Int) : Bool :=
  match month with
  | some m => decide (m = k)
  | none => false

def springLabel : String := "वसंत से गर्मी"
def monsoonLabel : String := "मानसून"
def autumnLabel : String := "शरद"
def coldSeasonLabel : String := "ठंड का मौसम"

/-- The season label chosen at lines 186-193. -/
def seasonLabel (month : Option Int) : String :=
  if monthBetween month 3 5 then springLabel
  else if monthBetween month 6 9 then monsoonLabel
  else if monthIs month 10 || monthIs month 11 then autumnLabel
  else coldSeasonLabel

/-- The template of line 195. -/
def seasonSentence (label : String) : String := "यह " ++ label ++ " का दौर है।"

def heatSentence : String := "तेज़ धूप से बचने के लिए हल्के कपड़े पहनें और पर्याप्त पानी पिएँ।"
def coldSentence : String := "गरम कपड़े पहनें और ठंडी हवाओं से खुद को ढँक कर रखें।"
def warmSentence : String := "हल्का और आरामदायक पहनावा चुनें तथा ठंडे पेय पदार्थ लें।"
def comfortableSentence : String := "तापमान आरामदायक है, सामान्य दिनचर्या जारी रखें।"
def humidSentence : String := "उच्च आर्द्रता के कारण पसीना अधिक हो सकता है, ठंडा रहने के उपाय करें।"
def dryAirSentence : String := "हवा शुष्क है, त्वचा को मॉइस्चराइज़ रखें और पानी पिएँ।"
def umbrellaSentence : String := "बारिश की प्रबल संभावना है, छाता या रेनकोट साथ रखें।"
def lightShowersSentence : String := "हल्की फुहारें पड़ सकती हैं, सतर्क रहें।"
def lowRainSentence : String := "वर्षा की संभावना कम है, मौसम सुहाना रहेगा।"

/-- The pattern `Number.isFinite(v) ? Number(v) : null` of lines 182-184. -/
def finiteOrNull : JSValue → Option ℚ
  | JSValue.number q => some q
  | _ => none

/-- The value of `month` at line 180. -/
def adviceMonth (P : Platform) (timezone : String) : Option Int :=
  let monthIndex := if timezone ≠ "" then P.zonedMonth timezone else some P.clockMonth
  monthIndex.map (fun k => k + 1)

/-- The block of lines 197-207: the temperature sentence pushed onto `adviceParts`. -/
def pushTemperature (temp : Option ℚ) (adviceParts : List String) : List String :=
  match temp with
  | none => adviceParts
  | some t =>
    if 38 ≤ t then adviceParts ++ [heatSentence]
    else if t ≤ 10 then adviceParts ++ [coldSentence]
    else if 28 ≤ t then adviceParts ++ [warmSentence]
    else adviceParts ++ [comfortableSentence]

/-- The block of lines 209-215: the humidity sentence pushed onto `adviceParts`. -/
def pushHumidity (humidity : Option ℚ) (adviceParts : List String) : List String :=
  match humidity with
  | none => adviceParts
  | some h =>
    if 75 ≤ h then adviceParts ++ [humidSentence]
    else if h ≤ 35 then adviceParts ++ [dryAirSentence]
    else adviceParts

/-- The block of lines 217-225: the rain sentence pushed onto `adviceParts`. -/
def pushRain (rainChance : Option ℚ) (adviceParts : List String) : List String :=
  match rainChance with
  | none => adviceParts
  | some r =>
    if 60 ≤ r then adviceParts ++ [umbrellaSentence]
    else if 30 ≤ r then adviceParts ++ [lightShowersSentence]
    else adviceParts ++ [lowRainSentence]

/-- The array `adviceParts` when `getSeasonAdvice` reaches its `return` (line 227). -/
def adviceParts (P : Platform) (tempInput humidityInput rainChanceInput : JSValue)
    (timezone : String) : List String :=
  let month := adviceMonth P timezone
  let temp := finiteOrNull tempInput
  let humidity := finiteOrNull humidityInput
  let rainChance := finiteOrNull rainChanceInput
  let season := seasonLabel month
  pushRain rainChance (pushHumidity humidity (pushTemperature temp [seasonSentence season]))

/-- The function `getSeasonAdvice` (lines 175-228). -/
def getSeasonAdvice (P : Platform) (tempInput humidityInput rainChanceInput : JSValue)
    (timezone : String) : String :=
  " ".intercalate (adviceParts P tempInput humidityInput rainChanceInput timezone)

/-! ## The page -/

/-- The elements of the page the script reads and writes. -/
structure Dom where
  /-- The property `cityInput.value`. -/
  cityValue : String
  /-- Whether `cityInput.focus()` has been called. -/
  cityFocused : Bool
  /-- The property `statusMessage.textContent`. -/
  statusText : String
  /-- The property `weatherCard.hidden`. -/
  cardHidden : Bool
  temperatureText : String
  humidityText : String
  rainChanceText : String
  seasonAdviceText : String
  /-- The property `submitButton.disabled`. -/
  buttonDisabled : Bool
  /-- The property `submitButton.textContent`. -/
  buttonText : String
  deriving DecidableEq, Repr

/-- The object `fetchForecast` returns. -/
structure Forecast where
  temperature : JSValue
  humidity : JSValue
  rainChance : JSValue
  timezone : String
  deriving DecidableEq, Repr

/-- The text of `Math.round(v)` inside a template literal. -/
def roundedText (P : Platform) (v : JSValue) : String :=
  match JSValue.toNumber P v with
  | none => "NaN"
  | some q => toString (roundHalfUp q)

/-- One field of the card: `display === "--" ? "-- unit" : Math.round(display) + " unit"`. -/
def fieldText (P : Platform) (display : JSValue) (unit : String) : String :=
  if display = JSValue.string "--" then "-- " ++ unit
  else roundedText P display ++ " " ++ unit

/-- The function `populateWeatherCard` (lines 159-173). -/
def populateWeatherCard (P : Platform) (forecast : Forecast) (dom : Dom) : Dom :=
  let displayTemp := JSValue.nullish forecast.temperature (JSValue.string "--")
  let displayHumidity := JSValue.nullish forecast.humidity (JSValue.string "--")
  let displayRainChance := JSValue.nullish forecast.rainChance (JSValue.string "--")
  let advice :=
    getSeasonAdvice P displayTemp displayHumidity displayRainChance forecast.timezone
  { dom with
    temperatureText := fieldText P displayTemp "°C"
    humidityText := fieldText P displayHumidity "%"
    rainChanceText := fieldText P displayRainChance "%"
    seasonAdviceText := advice }

/-- The function `setLoadingState` (lines 44-47). -/
def setLoadingState (isLoading : Bool) (dom : Dom) : Dom :=
  { dom with
    buttonDisabled := isLoading
    buttonText := if isLoading then "लोड हो रहा है…" else "Get Weather" }

/-! ## The two requests -/

def GEOCODING_ENDPOINT : String := "https://geocoding-api.open-meteo.com/v1/search"
def FORECAST_ENDPOINT : String := "https://api.open-meteo.com/v1/forecast"

/-- A call of `fetch`: the endpoint and the entries given to `URLSearchParams`, before they
are turned into query text. -/
structure Request where
  endpoint : String
  params : List (String × JSValue)
  deriving DecidableEq, Repr

/-- One entry of `results` in the geocoding payload; `none` is a field that is `null` or
absent. -/
structure GeoResult where
  latitude : JSValue
  longitude : JSValue
  name : Option String
  country : Option String
  timezone : Option String
  deriving DecidableEq, Repr

/-- The object `current` of the forecast payload. -/
structure Current where
  temperature_2m : JSValue
  relative_humidity_2m : JSValue
  precipitation : JSValue
  deriving DecidableEq, Repr

/-- The object `hourly` of the forecast payload.  For `time`, `none` is an absent field; for
`precipitation_probability`, `none` is a value for which `Array.isArray` is false. -/
structure Hourly where
  time : Option (List String)
  precipitation_probability : Option (List JSValue)
  deriving DecidableEq, Repr

/-- The object a response body parses to: the fields the script reads, each possibly absent. -/
structure Payload where
  results : Option (List GeoResult)
  current : Option Current
  hourly : Option Hourly
  deriving DecidableEq, Repr

/-- The outcome of `await fetch(url)` followed, when the script asks for it, by
`await response.json()`: the promise of `fetch` is rejected, or there is a response with its
`ok` flag and the parsed body (`none` when `json()` is rejected, or when the body is not an
object, so that reading a field of it throws). -/
inductive Fetched where
  | rejected
  | response (ok : Bool) (json : Option Payload)
  deriving DecidableEq, Repr

/-- The network: what each call of `fetch` answers. -/
structure Network where
  fetch : Request → Fetched

/-- The object `fetchLocation` returns. -/
structure Location where
  latitude : JSValue
  longitude : JSValue
  name : String
  country : String
  timezone : String
  deriving DecidableEq, Repr

/-- The errors the `catch` clause of the handler can receive. -/
inductive JSError where
  | thrown (message : String)
  | fetchRejected
  | jsonRejected
  | typeError
  deriving DecidableEq, Repr

/-- The request built at lines 50-57. -/
def geocodingRequest (city : String) : Request :=
  { endpoint := GEOCODING_ENDPOINT
    params :=
      [("name", JSValue.string city), ("count", JSValue.string "1"),
       ("language", JSValue.string "hi"), ("format", JSValue.string "json")] }

/-- The function `fetchLocation` (lines 49-77): the requests it issued, and its result. -/
def fetchLocation (N : Network) (city : String) : List Request × Except JSError Location :=
  let request := geocodingRequest city
  let outcome : Except JSError Location :=
    match N.fetch request with
    | Fetched.rejected => Except.error JSError.fetchRejected
    | Fetched.response ok json =>
      if !ok then Except.error (JSError.thrown "Geocoding request failed")
      else
        match json with
        | none => Except.error JSError.jsonRejected
        | some data =>
          match data.results with
          | none => Except.error (JSError.thrown "City not found")
          | some [] => Except.error (JSError.thrown "City not found")
          | some (result :: _) =>
            Except.ok
              { latitude := result.latitude
                longitude := result.longitude
                name := result.name.getD city
                country := result.country.getD ""
                timezone := result.timezone.getD "UTC" }
  ([request], outcome)

/-- The request built at lines 80-89. -/
def forecastRequest (location : Location) : Request :=
  { endpoint := FORECAST_ENDPOINT
    params :=
      [("latitude", location.latitude), ("longitude", location.longitude),
       ("current", JSValue.string "temperature_2m,relative_humidity_2m,precipitation"),
       ("hourly", JSValue.string "precipitation_probability"),
       ("forecast_days", JSValue.string "1"),
       ("timezone", JSValue.string location.timezone)] }

/-- The value of `data.current?.field ?? fallback`. -/
def currentField (data : Payload) (field : Current → JSValue) (fallback : JSValue) : JSValue :=
  match data.current with
  | none => fallback
  | some current => JSValue.nullish (field current) fallback

/-- The expression of lines 96-104. -/
def rainChanceOf (P : Platform) (data : Payload) (timezone : String) :
    Except JSError JSValue :=
  match data.hourly.bind (fun hourly => hourly.precipitation_probability) with
  | some (p :: ps) =>
    match data.hourly.bind (fun hourly => hourly.time) with
    | some times => Except.ok (averageNextSixHours P times (p :: ps) timezone)
    | none => Except.error JSError.typeError
  | _ => Except.ok (currentField data (fun current => current.precipitation) (JSValue.number 0))

/-- The function `fetchForecast` (lines 79-112): the requests it issued, and its result. -/
def fetchForecast (P : Platform) (N : Network) (location : Location) :
    List Request × Except JSError Forecast :=
  let request := forecastRequest location
  let outcome : Except JSError Forecast :=
    match N.fetch request with
    | Fetched.rejected => Except.error JSError.fetchRejected
    | Fetched.response ok json =>
      if !ok then Except.error (JSError.thrown "Forecast request failed")
      else
        match json with
        | none => Except.error JSError.jsonRejected
        | some data =>
          match rainChanceOf P data location.timezone with
          | Except.error e => Except.error e
          | Except.ok rainChance =>
            Except.ok
              { temperature :=
                  currentField data (fun current => current.temperature_2m) JSValue.null
                humidity :=
                  currentField data (fun current => current.relative_humidity_2m) JSValue.null
                rainChance := rainChance
                timezone := location.timezone }
  ([request], outcome)

/-! ## The submit handler -/

/-- The code points `String.prototype.trim` removes: white space and line terminators. -/
def isTrimmed (c : Char) : Bool :=
  c.toNat ∈ [0x09, 0x0A, 0x0B, 0x0C, 0x0D, 0x20, 0xA0, 0x1680, 0x2028, 0x2029, 0x202F,
    0x205F, 0x3000, 0xFEFF] || (decide (0x2000 ≤ c.toNat) && decide (c.toNat ≤ 0x200A))

/-- The method `String.prototype.trim`. -/
def jsTrim (s : String) : String :=
  String.mk ((s.data.dropWhile isTrimmed).rdropWhile isTrimmed)

def emptyCityText : String := "कृपया शहर का नाम दर्ज करें।"
def loadingText : String := "मौसम जानकारी प्राप्त की जा रही है…"
def apologyText : String :=
  "क्षमा करें, मौसम जानकारी प्राप्त नहीं हो सकी। कृपया बाद में पुनः प्रयास करें।"

/-- The status text of line 34. -/
def successText (location : Location) : String :=
  location.name ++ ", " ++ location.country ++ " के लिए ताज़ा मौसम डेटा।"

/-- The `try` / `catch` part of the handler (lines 30-38), from the page as it is when the
block is entered: the page after it, and the requests issued in order. -/
def tryBlock (P : Platform) (N : Network) (city : String) (dom : Dom) : Dom × List Request :=
  match fetchLocation N city with
  | (sent, Except.error _) => ({ dom with statusText := apologyText }, sent)
  | (sent, Except.ok location) =>
    match fetchForecast P N location with
    | (sent2, Except.error _) => ({ dom with statusText := apologyText }, sent ++ sent2)
    | (sent2, Except.ok forecast) =>
      let dom1 := populateWeatherCard P forecast dom
      ({ dom1 with statusText := successText location, cardHidden := false }, sent ++ sent2)

/-- The submit handler (lines 14-42): the page when it finishes, and the network requests it
issued, in order. -/
def submitHandler (P : Platform) (N : Network) (dom : Dom) : Dom × List Request :=
  let city := jsTrim dom.cityValue
  let dom1 := { dom with cardHidden := true, statusText := "" }
  if city = "" then
    ({ dom1 with statusText := emptyCityText, cityFocused := true }, [])
  else
    let dom2 := setLoadingState true dom1
    let dom3 := { dom2 with statusText := loadingText }
    let (dom4, sent) := tryBlock P N city dom3
    (setLoadingState false dom4, sent)

/-! ## Vocabulary of the statements -/

/-- The test of line 120 on one entry of `times`: the parsed sample time is at or after the
clock reading taken at line 115. -/
def atOrAfterNow (P : Platform) (timezone : String) (t : String) : Bool :=
  dateGe (parseDateWithTimezone P t timezone) (some P.clock)

/-- The probabilities `probabilities[i]` of the samples whose time `times[i]` is at or after
now, in list order, the indices starting at `start`. -/
def futureSamplesFrom (P : Platform) (probabilities : List JSValue) (timezone : String)
    (start : Nat) (times : List String) : List JSValue :=
  ((times.enumFrom start).filter (fun it => atOrAfterNow P timezone it.2)).map
    (fun it => probabilities.getD it.1 JSValue.undefined)

/-- The probabilities of all the samples whose time is at or after now, in list order. -/
def futureSamples (P : Platform) (times : List String) (probabilities : List JSValue)
    (timezone : String) : List JSValue :=
  futureSamplesFrom P probabilities timezone 0 times

/-- What a probability counts for in the sum: `0` when it is falsy (`null`, `undefined`, `0`,
`NaN`, the empty string, `false`), its numeric value otherwise. -/
def countedValue (P : Platform) (v : JSValue) : JSNumber :=
  if v.truthy then JSValue.toNumber P v else some 0

/-- The rounded arithmetic mean of a window of samples, as the claim words it: the sum of the
counted values over the number of samples, rounded with halves going up. -/
def roundedMean (P : Platform) (window : List JSValue) : JSValue :=
  match (window.map (countedValue P)).foldl numAdd (some 0) with
  | none => JSValue.nan
  | some total => JSValue.number ((⌊total / (window.length : ℚ) + 1 / 2⌋ : Int) : ℚ)

/-- The advice text contains the sentence, as a run of consecutive characters. -/
def containsSentence (advice sentence : String) : Prop := sentence.data <:+: advice.data

/-- The advice text ends with the sentence. -/
def endsWithSentence (advice sentence : String) : Prop := sentence.data <:+ advice.data

/-- The four temperature sentences (lines 199, 201, 203, 205). -/
def temperatureSentences : List String :=
  [heatSentence, coldSentence, warmSentence, comfortableSentence]

/-- The two humidity sentences (lines 211, 213). -/
def humiditySentences : List String := [humidSentence, dryAirSentence]

/-- The three rain sentences (lines 219, 221, 223). -/
def rainSentences : List String := [umbrellaSentence, lightShowersSentence, lowRainSentence]

/-- The four season sentences line 195 can produce. -/
def seasonSentences : List String :=
  [seasonSentence springLabel, seasonSentence monsoonLabel, seasonSentence autumnLabel,
   seasonSentence coldSeasonLabel]

/-- Every text `getSeasonAdvice` can push onto `adviceParts`. -/
def knownParts : List String :=
  seasonSentences ++ temperatureSentences ++ humiditySentences ++ rainSentences

/-- The page when the handler enters its `try` block (lines 18-28): card hidden, button
disabled with the loading label, loading status. -/
def loadingPage (dom : Dom) : Dom :=
  { setLoadingState true { dom with cardHidden := true, statusText := "" } with
    statusText := loadingText }

/-! ## Sample inputs -/

/-- Eight hourly time texts with the time values the sample host gives them. -/
def sampleHours : List (String × Int) :=
  [("2026-11-06T09:00:00", 900), ("2026-11-06T10:00:00", 1000),
   ("2026-11-06T11:00:00", 1100), ("2026-11-06T12:00:00", 1200),
   ("2026-11-06T13:00:00", 1300), ("2026-11-06T14:00:00", 1400),
   ("2026-11-06T15:00:00", 1500), ("2026-11-06T16:00:00", 1600)]

/-- A host whose clock reads 1000, that parses the eight time texts of `sampleHours` and
formats their time values back to the same texts (the zone of the browser). -/
def samplePlatform : Platform :=
  { clock := 1000
    dateParse := fun text => sampleHours.lookup text
    formatInZone := fun _ date =>
      match sampleHours.find? (fun entry => entry.2 == date) with
      | some entry => entry.1
      | none => ""
    stringToNumber := fun _ => none
    zonedMonth := fun _ => some 6
    clockMonth := 0 }

/-- Eight hourly sample times, the first one before the clock reading. -/
def sampleTimes : List String :=
  ["2026-11-06T09:00", "2026-11-06T10:00", "2026-11-06T11:00", "2026-11-06T12:00",
   "2026-11-06T13:00", "2026-11-06T14:00", "2026-11-06T15:00", "2026-11-06T16:00"]

/-- Eight hourly probabilities. -/
def sampleProbabilities : List JSValue :=
  [JSValue.number 80, JSValue.number 40, JSValue.number 20, JSValue.number 10,
   JSValue.number 0, JSValue.number 30, JSValue.number 50, JSValue.number 90]

/-- A page whose city field holds a name with blanks around it. -/
def sampleDom : Dom :=
  { cityValue := "  Delhi "
    cityFocused := false
    statusText := ""
    cardHidden := true
    temperatureText := ""
    humidityText := ""
    rainChanceText := ""
    seasonAdviceText := ""
    buttonDisabled := false
    buttonText := "Get Weather" }

/-- A page whose city field holds only white space, with a card still shown. -/
def blankDom : Dom :=
  { sampleDom with cityValue := " \t ", cardHidden := false, statusText := "Delhi" }

/-- A geocoding result without a time zone. -/
def sampleResult : GeoResult :=
  { latitude := JSValue.number 28
    longitude := JSValue.number 77
    name := some "Delhi"
    country := some "India"
    timezone := none }

/-- A forecast body with current readings and no hourly block. -/
def currentOnlyPayload (precipitation : ℚ) : Payload :=
  { results := none
    current := some
      { temperature_2m := JSValue.number 31
        relative_humidity_2m := JSValue.number 40
        precipitation := JSValue.number precipitation }
    hourly := none }

/-- A network that answers the geocoding request with one result and the forecast request with
a body that has no hourly block. -/
def currentOnlyNetwork (precipitation : ℚ) : Network :=
  { fetch := fun request =>
      if request.endpoint = GEOCODING_ENDPOINT then
        Fetched.response true (some { results := some [sampleResult], current := none,
                                      hourly := none })
      else Fetched.response true (some (currentOnlyPayload precipitation)) }

/-- A network on which every geocoding lookup finds no city. -/
def noCityNetwork : Network :=
  { fetch := fun _ =>
      Fetched.response true (some { results := none, current := none, hourly := none }) }

/-- The location `fetchLocation` builds from `sampleResult`. -/
def sampleLocation : Location :=
  { latitude := JSValue.number 28
    longitude := JSValue.number 77
    name := "Delhi"
    country := "India"
    timezone := "UTC" }

end Weather

/-! # Properties -/

namespace Weather

/-! ## The averaging window -/

theorem sumStep_eq (P : Platform) (total : JSNumber) (v : JSValue) :
    sumStep P total v = numAdd total (countedValue P v) := by
  unfold sumStep countedValue JSValue.or
  by_cases h : v.truthy = true <;> simp [h, JSValue.toNumber]

theorem foldl_sumStep (P : Platform) (window : List JSValue) (acc : JSNumber) :
    window.foldl (sumStep P) acc = (window.map (countedValue P)).foldl numAdd acc := by
  induction window generalizing acc with
  | nil => rfl
  | cons v rest ih => simp [List.foldl, sumStep_eq, ih]

theorem futureSamplesFrom_cons (P : Platform) (probabilities : List JSValue)
    (timezone : String) (i : Nat) (t : String) (rest : List String) :
    futureSamplesFrom P probabilities timezone i (t :: rest) =
      (if atOrAfterNow P timezone t then [probabilities.getD i JSValue.undefined] else []) ++
        futureSamplesFrom P probabilities timezone (i + 1) rest := by
  unfold futureSamplesFrom
  by_cases h : atOrAfterNow P timezone t = true <;> simp [List.enumFrom, List.filter, h]

/-- The loop collects the first six future samples. -/
theorem loop_eq_take (P : Platform) (probabilities : List JSValue) (timezone : String)
    (times : List String) (i : Nat) (offsets : List JSValue) (h : offsets.length < 6) :
    averageNextSixHours.loop P (some P.clock) probabilities timezone times i offsets =
      (offsets ++ futureSamplesFrom P probabilities timezone i times).take 6 := by
  induction times generalizing i offsets with
  | nil =>
    simp [averageNextSixHours.loop, futureSamplesFrom]
    omega
  | cons t rest ih =>
    rw [futureSamplesFrom_cons]
    unfold averageNextSixHours.loop
    by_cases hq : atOrAfterNow P timezone t = true
    · have hq1 : dateGe (parseDateWithTimezone P t timezone) (some P.clock) = true := hq
      simp only [hq1, hq, if_true]
      by_cases hlen : (offsets ++ [probabilities.getD i JSValue.undefined]).length = 6
      · simp only [hlen, if_true]
        rw [← List.append_assoc, List.take_append_of_le_length (by omega)]
        rw [List.take_of_length_le (by omega)]
      · simp only [hlen, if_false]
        rw [ih (i + 1) _ (by simp at hlen ⊢; omega), List.append_assoc]
    · have hq1 : dateGe (parseDateWithTimezone P t timezone) (some P.clock) = false := by
        simpa [atOrAfterNow] using hq
      have hq2 : atOrAfterNow P timezone t = false := by simpa using hq
      simp only [hq1, hq2, Bool.false_eq_true, if_false, List.nil_append]
      have hlen : ¬ offsets.length = 6 := by omega
      simp only [hlen, if_false]
      exact ih (i + 1) offsets h

theorem code_mean_eq_roundedMean (P : Platform) (window : List JSValue) :
    JSValue.ofNumber (mathRound (numDiv (window.foldl (sumStep P) (some 0)) window.length)) =
      roundedMean P window := by
  unfold roundedMean
  rw [foldl_sumStep]
  cases (window.map (countedValue P)).foldl numAdd (some 0) with
  | none => rfl
  | some total => simp [numDiv, mathRound, JSValue.ofNumber, roundHalfUp]

/-- The function in terms of the future samples: the fallback when there is none, the
rounded mean of the first six otherwise. -/
theorem averageNextSixHours_eq (P : Platform) (times : List String)
    (probabilities : List JSValue) (timezone : String) :
    averageNextSixHours P times probabilities timezone =
      if futureSamples P times probabilities timezone = [] then
        JSValue.nullish (probabilities.getD (probabilities.length - 1) JSValue.undefined)
          (JSValue.number 0)
      else roundedMean P ((futureSamples P times probabilities timezone).take 6) := by
  unfold averageNextSixHours
  simp only []
  rw [loop_eq_take P probabilities timezone times 0 [] (by simp)]
  simp only [List.nil_append]
  change (if ((futureSamples P times probabilities timezone).take 6).length = 0 then _ else _) = _
  by_cases hnil : futureSamples P times probabilities timezone = []
  · simp [hnil]
  · have hlen : ¬ ((futureSamples P times probabilities timezone).take 6).length = 0 := by
      have := List.length_pos.mpr hnil
      simp only [List.length_take]
      omega
    simp only [hlen, hnil, if_false]
    exact code_mean_eq_roundedMean P _

theorem countedValue_number (P : Platform) (q : ℚ) :
    countedValue P (JSValue.number q) = some q := by
  unfold countedValue JSValue.truthy
  by_cases h : q = 0 <;> simp [h, JSValue.toNumber]

/-- The sample forecast: the six samples from 10:00 to 15:00 average to 25. -/
theorem averageNextSixHours_sample :
    futureSamples samplePlatform sampleTimes sampleProbabilities "UTC" =
        [JSValue.number 40, JSValue.number 20, JSValue.number 10, JSValue.number 0,
         JSValue.number 30, JSValue.number 50, JSValue.number 90] ∧
      averageNextSixHours samplePlatform sampleTimes sampleProbabilities "UTC" =
        JSValue.number 25 := by
  have hf : futureSamples samplePlatform sampleTimes sampleProbabilities "UTC" =
      [JSValue.number 40, JSValue.number 20, JSValue.number 10, JSValue.number 0,
       JSValue.number 30, JSValue.number 50, JSValue.number 90] := by decide
  refine ⟨hf, ?_⟩
  rw [averageNextSixHours_eq, hf, if_neg (List.cons_ne_nil _ _)]
  have hw : List.take 6 [JSValue.number 40, JSValue.number 20, JSValue.number 10,
      JSValue.number 0, JSValue.number 30, JSValue.number 50, JSValue.number 90] =
      [JSValue.number 40, JSValue.number 20, JSValue.number 10, JSValue.number 0,
       JSValue.number 30, JSValue.number 50] := rfl
  rw [hw]
  unfold roundedMean
  simp only [List.map_cons, List.map_nil, countedValue_number, List.foldl_cons, List.foldl_nil,
    numAdd, List.length_cons, List.length_nil]
  have hfloor : ⌊((0 : ℚ) + 40 + 20 + 10 + 0 + 30 + 50) /
      (((0 + 1 + 1 + 1 + 1 + 1 + 1 : ℕ) : ℚ)) + 1 / 2⌋ = 25 := by
    rw [Int.floor_eq_iff]
    norm_num
  rw [hfloor]
  norm_num

/-! ## Sentences inside the joined advice text -/

theorem intercalate_go_concat (acc sep : String) (l : List String) (x : String) :
    String.intercalate.go acc sep (l ++ [x]) = String.intercalate.go acc sep l ++ sep ++ x := by
  induction l generalizing acc with
  | nil => simp [String.intercalate.go]
  | cons a rest ih => simp [String.intercalate.go, ih]

theorem intercalate_concat (sep : String) (l : List String) (x : String) (hne : l ≠ []) :
    sep.intercalate (l ++ [x]) = sep.intercalate l ++ sep ++ x := by
  cases l with
  | nil => exact absurd rfl hne
  | cons a rest => simp [String.intercalate, intercalate_go_concat]

theorem prefix_of_prefix_append_sep {M A B : List Char} {c : Char} (hc : c ∉ M)
    (h : M <+: A ++ c :: B) : M <+: A := by
  induction A generalizing M with
  | nil =>
    rcases List.prefix_cons_iff.mp h with rfl | ⟨t, rfl, _⟩
    · exact List.prefix_rfl
    · exact absurd (List.mem_cons_self _ _) hc
  | cons a rest ih =>
    rcases List.prefix_cons_iff.mp h with rfl | ⟨t, rfl, ht⟩
    · exact List.nil_prefix
    · exact (List.prefix_cons_inj a).mpr (ih (fun hmem => hc (List.mem_cons_of_mem _ hmem)) ht)

/-- A text without the separator that occurs in `A ++ c :: B` occurs in `A` or in `B`. -/
theorem infix_of_infix_append_sep {M A B : List Char} {c : Char} (hc : c ∉ M)
    (h : M <:+: A ++ c :: B) : M <:+: A ∨ M <:+: B := by
  induction A with
  | nil =>
    rcases List.infix_cons_iff.mp h with hp | hi
    · exact Or.inl (prefix_of_prefix_append_sep (A := []) hc hp).isInfix
    · exact Or.inr hi
  | cons a rest ih =>
    rcases List.infix_cons_iff.mp h with hp | hi
    · exact Or.inl (prefix_of_prefix_append_sep (A := a :: rest) hc hp).isInfix
    · rcases ih hi with h1 | h2
      · exact Or.inl (List.infix_cons h1)
      · exact Or.inr h2

/-- A non-empty text without a space that occurs in the joined parts occurs in one part. -/
theorem infix_part_of_infix_join (M : List Char) (hsp : ' ' ∉ M) (hne : M ≠ [])
    (parts : List String) (h : M <:+: (" ".intercalate parts).data) :
    ∃ p ∈ parts, M <:+: p.data := by
  induction parts using List.reverseRecOn with
  | nil =>
    simp [String.intercalate] at h
    exact absurd h hne
  | append_singleton l x ih =>
    by_cases hl : l = []
    · subst hl
      exact ⟨x, by simp, by simpa [String.intercalate, String.intercalate.go] using h⟩
    · rw [intercalate_concat _ _ _ hl] at h
      simp only [String.data_append] at h
      have h1 : M <:+: (" ".intercalate l).data ++ ' ' :: x.data := by
        simpa [List.append_assoc] using h
      rcases infix_of_infix_append_sep hsp h1 with h2 | h2
      · obtain ⟨p, hp, hpM⟩ := ih h2
        exact ⟨p, List.mem_append_left _ hp, hpM⟩
      · exact ⟨x, by simp, h2⟩

/-- Each part occurs in the joined text. -/
theorem infix_join_of_mem (parts : List String) (p : String) (hp : p ∈ parts) :
    p.data <:+: (" ".intercalate parts).data := by
  induction parts using List.reverseRecOn with
  | nil => simp at hp
  | append_singleton l x ih =>
    by_cases hl : l = []
    · subst hl
      simp at hp
      subst hp
      simp [String.intercalate, String.intercalate.go]
    · rw [intercalate_concat _ _ _ hl]
      simp only [String.data_append]
      rcases List.mem_append.mp hp with h1 | h1
      · exact (ih h1).trans ⟨[], " ".data ++ x.data, by simp⟩
      · simp at h1
        subst h1
        exact ⟨(" ".intercalate l).data ++ " ".data, [], by simp⟩

/-! ## The parts of the advice -/

theorem pushTemperature_eq (temp : Option ℚ) (l : List String) :
    pushTemperature temp l = l ++ pushTemperature temp [] := by
  unfold pushTemperature
  cases temp with
  | none => simp
  | some t => simp only []; split_ifs <;> simp

theorem pushHumidity_eq (humidity : Option ℚ) (l : List String) :
    pushHumidity humidity l = l ++ pushHumidity humidity [] := by
  unfold pushHumidity
  cases humidity with
  | none => simp
  | some t => simp only []; split_ifs <;> simp

theorem pushRain_eq (rainChance : Option ℚ) (l : List String) :
    pushRain rainChance l = l ++ pushRain rainChance [] := by
  unfold pushRain
  cases rainChance with
  | none => simp
  | some t => simp only []; split_ifs <;> simp

/-- The array is the season sentence followed by at most one sentence of each kind. -/
theorem adviceParts_eq (P : Platform) (tempInput humidityInput rainChanceInput : JSValue)
    (timezone : String) :
    adviceParts P tempInput humidityInput rainChanceInput timezone =
      [seasonSentence (seasonLabel (adviceMonth P timezone))] ++
        pushTemperature (finiteOrNull tempInput) [] ++
        pushHumidity (finiteOrNull humidityInput) [] ++
        pushRain (finiteOrNull rainChanceInput) [] := by
  unfold adviceParts
  simp only []
  rw [pushRain_eq, pushHumidity_eq, pushTemperature_eq]

theorem finiteOrNull_eq_some (v : JSValue) (q : ℚ) :
    finiteOrNull v = some q ↔ v = JSValue.number q := by
  cases v <;> simp [finiteOrNull]

theorem seasonLabel_cases (month : Option Int) :
    seasonLabel month = springLabel ∨ seasonLabel month = monsoonLabel ∨
      seasonLabel month = autumnLabel ∨ seasonLabel month = coldSeasonLabel := by
  unfold seasonLabel
  split_ifs <;> simp

theorem seasonSentence_mem (month : Option Int) :
    seasonSentence (seasonLabel month) ∈ seasonSentences := by
  rcases seasonLabel_cases month with h | h | h | h <;> rw [h] <;> simp [seasonSentences]

theorem mem_pushTemperature (temp : Option ℚ) (p : String) :
    p ∈ pushTemperature temp [] ↔
      ∃ t, temp = some t ∧
        ((38 ≤ t ∧ p = heatSentence) ∨ (t ≤ 10 ∧ p = coldSentence) ∨
          (28 ≤ t ∧ t < 38 ∧ p = warmSentence) ∨ (10 < t ∧ t < 28 ∧ p = comfortableSentence)) := by
  unfold pushTemperature
  cases temp with
  | none => simp
  | some t =>
    simp only [List.nil_append, Option.some.injEq, exists_eq_left']
    split_ifs with h1 h2 h3
    · have : ¬ t ≤ 10 := by linarith
      have : ¬ t < 38 := by linarith
      have : ¬ t < 28 := by linarith
      simp [*]
    · have : ¬ 28 ≤ t := by linarith
      have : ¬ 10 < t := by linarith
      simp [*]
    · have : t < 38 := by linarith
      simp [*]
    · have : 10 < t := by linarith
      have : t < 28 := by linarith
      simp [*]

theorem mem_pushHumidity (humidity : Option ℚ) (p : String) :
    p ∈ pushHumidity humidity [] ↔
      ∃ h, humidity = some h ∧ ((75 ≤ h ∧ p = humidSentence) ∨ (h ≤ 35 ∧ p = dryAirSentence)) := by
  unfold pushHumidity
  cases humidity with
  | none => simp
  | some h =>
    simp only [List.nil_append, Option.some.injEq, exists_eq_left']
    split_ifs with h1 h2
    · have : ¬ h ≤ 35 := by linarith
      simp [*]
    · simp [*]
    · simp [*]

theorem mem_pushRain (rainChance : Option ℚ) (p : String) :
    p ∈ pushRain rainChance [] ↔
      ∃ r, rainChance = some r ∧
        ((60 ≤ r ∧ p = umbrellaSentence) ∨ (30 ≤ r ∧ r < 60 ∧ p = lightShowersSentence) ∨
          (r < 30 ∧ p = lowRainSentence)) := by
  unfold pushRain
  cases rainChance with
  | none => simp
  | some r =>
    simp only [List.nil_append, Option.some.injEq, exists_eq_left']
    split_ifs with h1 h2
    · have : ¬ r < 60 := by linarith
      have : ¬ r < 30 := by linarith
      simp [*]
    · have : r < 60 := by linarith
      have : ¬ r < 30 := by linarith
      simp [*]
    · have : r < 30 := by linarith
      have : ¬ 30 ≤ r := by linarith
      simp [*]

theorem pushTemperature_subset (temp : Option ℚ) :
    ∀ p ∈ pushTemperature temp [], p ∈ temperatureSentences := by
  intro p hp
  obtain ⟨t, _, h | h | h | h⟩ := (mem_pushTemperature temp p).mp hp <;>
    simp [temperatureSentences, h]

theorem pushHumidity_subset (humidity : Option ℚ) :
    ∀ p ∈ pushHumidity humidity [], p ∈ humiditySentences := by
  intro p hp
  obtain ⟨t, _, h | h⟩ := (mem_pushHumidity humidity p).mp hp <;>
    simp [humiditySentences, h]

theorem pushRain_subset (rainChance : Option ℚ) :
    ∀ p ∈ pushRain rainChance [], p ∈ rainSentences := by
  intro p hp
  obtain ⟨t, _, h | h | h⟩ := (mem_pushRain rainChance p).mp hp <;>
    simp [rainSentences, h]

theorem adviceParts_subset (P : Platform) (tempInput humidityInput rainChanceInput : JSValue)
    (timezone : String) :
    ∀ p ∈ adviceParts P tempInput humidityInput rainChanceInput timezone, p ∈ knownParts := by
  intro p hp
  rw [adviceParts_eq] at hp
  simp only [List.mem_append, List.mem_singleton] at hp
  unfold knownParts
  simp only [List.mem_append]
  rcases hp with ((hp | hp) | hp) | hp
  · exact Or.inl (Or.inl (Or.inl (hp ▸ seasonSentence_mem _)))
  · exact Or.inl (Or.inl (Or.inr (pushTemperature_subset _ p hp)))
  · exact Or.inl (Or.inr (pushHumidity_subset _ p hp))
  · exact Or.inr (pushRain_subset _ p hp)

theorem knownParts_groups :
    (∀ p ∈ temperatureSentences,
        p ∉ seasonSentences ∧ p ∉ humiditySentences ∧ p ∉ rainSentences) ∧
      (∀ p ∈ humiditySentences,
        p ∉ seasonSentences ∧ p ∉ temperatureSentences ∧ p ∉ rainSentences) ∧
      (∀ p ∈ rainSentences,
        p ∉ seasonSentences ∧ p ∉ temperatureSentences ∧ p ∉ humiditySentences) := by
  decide

/-- A temperature sentence is in the array exactly when the temperature block pushed it. -/
theorem mem_adviceParts_temperature (P : Platform)
    (tempInput humidityInput rainChanceInput : JSValue) (timezone : String) (S : String)
    (hS : S ∈ temperatureSentences) :
    S ∈ adviceParts P tempInput humidityInput rainChanceInput timezone ↔
      S ∈ pushTemperature (finiteOrNull tempInput) [] := by
  obtain ⟨h1, h2, h3⟩ := knownParts_groups.1 S hS
  rw [adviceParts_eq]
  simp only [List.mem_append, List.mem_singleton]
  constructor
  · rintro (((h | h) | h) | h)
    · exact absurd (h ▸ seasonSentence_mem _) h1
    · exact h
    · exact absurd (pushHumidity_subset _ S h) h2
    · exact absurd (pushRain_subset _ S h) h3
  · intro h
    exact Or.inl (Or.inl (Or.inr h))

/-- A humidity sentence is in the array exactly when the humidity block pushed it. -/
theorem mem_adviceParts_humidity (P : Platform)
    (tempInput humidityInput rainChanceInput : JSValue) (timezone : String) (S : String)
    (hS : S ∈ humiditySentences) :
    S ∈ adviceParts P tempInput humidityInput rainChanceInput timezone ↔
      S ∈ pushHumidity (finiteOrNull humidityInput) [] := by
  obtain ⟨h1, h2, h3⟩ := knownParts_groups.2.1 S hS
  rw [adviceParts_eq]
  simp only [List.mem_append, List.mem_singleton]
  constructor
  · rintro (((h | h) | h) | h)
    · exact absurd (h ▸ seasonSentence_mem _) h1
    · exact absurd (pushTemperature_subset _ S h) h2
    · exact h
    · exact absurd (pushRain_subset _ S h) h3
  · intro h
    exact Or.inl (Or.inr h)

/-- A rain sentence is in the array exactly when the rain block pushed it. -/
theorem mem_adviceParts_rain (P : Platform)
    (tempInput humidityInput rainChanceInput : JSValue) (timezone : String) (S : String)
    (hS : S ∈ rainSentences) :
    S ∈ adviceParts P tempInput humidityInput rainChanceInput timezone ↔
      S ∈ pushRain (finiteOrNull rainChanceInput) [] := by
  obtain ⟨h1, h2, h3⟩ := knownParts_groups.2.2 S hS
  rw [adviceParts_eq]
  simp only [List.mem_append, List.mem_singleton]
  constructor
  · rintro (((h | h) | h) | h)
    · exact absurd (h ▸ seasonSentence_mem _) h1
    · exact absurd (pushTemperature_subset _ S h) h2
    · exact absurd (pushHumidity_subset _ S h) h3
    · exact h
  · intro h
    exact Or.inr h

/-- A sentence that carries a marker no other part has is contained in the advice text exactly
when it is one of the joined parts. -/
theorem contains_iff_mem_of_marker (P : Platform)
    (tempInput humidityInput rainChanceInput : JSValue) (timezone : String)
    (S marker : String) (hmS : marker.data <:+: S.data) (hsp : ' ' ∉ marker.data)
    (hne : marker.data ≠ [])
    (huniq : ∀ p ∈ knownParts, marker.data <:+: p.data → p = S) :
    containsSentence (getSeasonAdvice P tempInput humidityInput rainChanceInput timezone) S ↔
      S ∈ adviceParts P tempInput humidityInput rainChanceInput timezone := by
  unfold containsSentence getSeasonAdvice
  constructor
  · intro h
    obtain ⟨p, hp, hpM⟩ := infix_part_of_infix_join marker.data hsp hne _ (hmS.trans h)
    have := huniq p (adviceParts_subset P tempInput humidityInput rainChanceInput timezone p hp)
      hpM
    exact this ▸ hp
  · exact infix_join_of_mem _ S

set_option maxRecDepth 100000 in
/-- Each of the nine advice sentences is contained in the advice text exactly when the
function pushed it. -/
theorem contains_iff_mem (P : Platform)
    (tempInput humidityInput rainChanceInput : JSValue) (timezone : String) (S : String)
    (hS : S ∈ temperatureSentences ++ humiditySentences ++ rainSentences) :
    containsSentence (getSeasonAdvice P tempInput humidityInput rainChanceInput timezone) S ↔
      S ∈ adviceParts P tempInput humidityInput rainChanceInput timezone := by
  simp only [temperatureSentences, humiditySentences, rainSentences, List.cons_append,
    List.nil_append, List.mem_cons, List.mem_singleton, List.not_mem_nil, or_false] at hS
  rcases hS with rfl | rfl | rfl | rfl | rfl | rfl | rfl | rfl | rfl
  · exact contains_iff_mem_of_marker P tempInput humidityInput rainChanceInput timezone _ "ते"
      (by decide) (by decide) (by decide) (by decide)
  · exact contains_iff_mem_of_marker P tempInput humidityInput rainChanceInput timezone _ "ओ"
      (by decide) (by decide) (by decide) (by decide)
  · exact contains_iff_mem_of_marker P tempInput humidityInput rainChanceInput timezone _ "चु"
      (by decide) (by decide) (by decide) (by decide)
  · exact contains_iff_mem_of_marker P tempInput humidityInput rainChanceInput timezone _ "पम"
      (by decide) (by decide) (by decide) (by decide)
  · exact contains_iff_mem_of_marker P tempInput humidityInput rainChanceInput timezone _ "उ"
      (by decide) (by decide) (by decide) (by decide)
  · exact contains_iff_mem_of_marker P tempInput humidityInput rainChanceInput timezone _ "ॉ"
      (by decide) (by decide) (by decide) (by decide)
  · exact contains_iff_mem_of_marker P tempInput humidityInput rainChanceInput timezone _ "छ"
      (by decide) (by decide) (by decide) (by decide)
  · exact contains_iff_mem_of_marker P tempInput humidityInput rainChanceInput timezone _ "फ"
      (by decide) (by decide) (by decide) (by decide)
  · exact contains_iff_mem_of_marker P tempInput humidityInput rainChanceInput timezone _ "वर"
      (by decide) (by decide) (by decide) (by decide)

/-! ## How many parts of each kind -/

theorem pushTemperature_length (temp : Option ℚ) :
    (pushTemperature temp []).length = if temp.isSome then 1 else 0 := by
  unfold pushTemperature
  cases temp with
  | none => rfl
  | some t => simp only [List.nil_append, Option.isSome_some, if_true]; split_ifs <;> rfl

theorem pushRain_length (rainChance : Option ℚ) :
    (pushRain rainChance []).length = if rainChance.isSome then 1 else 0 := by
  unfold pushRain
  cases rainChance with
  | none => rfl
  | some t => simp only [List.nil_append, Option.isSome_some, if_true]; split_ifs <;> rfl

theorem finiteOrNull_isSome (v : JSValue) : (finiteOrNull v).isSome = v.isFinite := by
  cases v <;> rfl

/-- Exactly one part is a temperature sentence when the temperature is finite, none is
otherwise. -/
theorem count_temperature_parts (P : Platform)
    (tempInput humidityInput rainChanceInput : JSValue) (timezone : String) :
    (adviceParts P tempInput humidityInput rainChanceInput timezone).countP
        (fun p => decide (p ∈ temperatureSentences)) =
      if tempInput.isFinite then 1 else 0 := by
  rw [adviceParts_eq]
  simp only [List.countP_append]
  have h0 : [seasonSentence (seasonLabel (adviceMonth P timezone))].countP
      (fun p => decide (p ∈ temperatureSentences)) = 0 := by
    rw [List.countP_eq_zero]
    intro p hp hmem
    simp only [List.mem_singleton] at hp
    have := (knownParts_groups.1 p (by simpa using hmem)).1
    exact this (hp ▸ seasonSentence_mem _)
  have h1 : (pushTemperature (finiteOrNull tempInput) []).countP
      (fun p => decide (p ∈ temperatureSentences)) =
      (pushTemperature (finiteOrNull tempInput) []).length := by
    rw [List.countP_eq_length]
    intro p hp
    simpa using pushTemperature_subset _ p hp
  have h2 : (pushHumidity (finiteOrNull humidityInput) []).countP
      (fun p => decide (p ∈ temperatureSentences)) = 0 := by
    rw [List.countP_eq_zero]
    intro p hp hmem
    exact (knownParts_groups.1 p (by simpa using hmem)).2.1 (pushHumidity_subset _ p hp)
  have h3 : (pushRain (finiteOrNull rainChanceInput) []).countP
      (fun p => decide (p ∈ temperatureSentences)) = 0 := by
    rw [List.countP_eq_zero]
    intro p hp hmem
    exact (knownParts_groups.1 p (by simpa using hmem)).2.2 (pushRain_subset _ p hp)
  rw [h0, h1, h2, h3, pushTemperature_length, finiteOrNull_isSome]
  simp

/-- Exactly one part is a rain sentence when the rain chance is finite, none is otherwise. -/
theorem count_rain_parts (P : Platform)
    (tempInput humidityInput rainChanceInput : JSValue) (timezone : String) :
    (adviceParts P tempInput humidityInput rainChanceInput timezone).countP
        (fun p => decide (p ∈ rainSentences)) =
      if rainChanceInput.isFinite then 1 else 0 := by
  rw [adviceParts_eq]
  simp only [List.countP_append]
  have h0 : [seasonSentence (seasonLabel (adviceMonth P timezone))].countP
      (fun p => decide (p ∈ rainSentences)) = 0 := by
    rw [List.countP_eq_zero]
    intro p hp hmem
    simp only [List.mem_singleton] at hp
    have := (knownParts_groups.2.2 p (by simpa using hmem)).1
    exact this (hp ▸ seasonSentence_mem _)
  have h1 : (pushTemperature (finiteOrNull tempInput) []).countP
      (fun p => decide (p ∈ rainSentences)) = 0 := by
    rw [List.countP_eq_zero]
    intro p hp hmem
    exact (knownParts_groups.2.2 p (by simpa using hmem)).2.1 (pushTemperature_subset _ p hp)
  have h2 : (pushHumidity (finiteOrNull humidityInput) []).countP
      (fun p => decide (p ∈ rainSentences)) = 0 := by
    rw [List.countP_eq_zero]
    intro p hp hmem
    exact (knownParts_groups.2.2 p (by simpa using hmem)).2.2 (pushHumidity_subset _ p hp)
  have h3 : (pushRain (finiteOrNull rainChanceInput) []).countP
      (fun p => decide (p ∈ rainSentences)) =
      (pushRain (finiteOrNull rainChanceInput) []).length := by
    rw [List.countP_eq_length]
    intro p hp
    simpa using pushRain_subset _ p hp
  rw [h0, h1, h2, h3, pushRain_length, finiteOrNull_isSome]
  simp

/-! ## Temperature, humidity and rain sentences -/

theorem contains_temperature_iff (P : Platform)
    (tempInput humidityInput rainChanceInput : JSValue) (timezone : String) (S : String)
    (hS : S ∈ temperatureSentences) :
    containsSentence (getSeasonAdvice P tempInput humidityInput rainChanceInput timezone) S ↔
      ∃ t, tempInput = JSValue.number t ∧
        ((38 ≤ t ∧ S = heatSentence) ∨ (t ≤ 10 ∧ S = coldSentence) ∨
          (28 ≤ t ∧ t < 38 ∧ S = warmSentence) ∨
          (10 < t ∧ t < 28 ∧ S = comfortableSentence)) := by
  rw [contains_iff_mem P _ _ _ _ S (by simp [hS]),
    mem_adviceParts_temperature P _ _ _ _ S hS, mem_pushTemperature]
  simp only [finiteOrNull_eq_some]

theorem contains_humidity_iff (P : Platform)
    (tempInput humidityInput rainChanceInput : JSValue) (timezone : String) (S : String)
    (hS : S ∈ humiditySentences) :
    containsSentence (getSeasonAdvice P tempInput humidityInput rainChanceInput timezone) S ↔
      ∃ h, humidityInput = JSValue.number h ∧
        ((75 ≤ h ∧ S = humidSentence) ∨ (h ≤ 35 ∧ S = dryAirSentence)) := by
  rw [contains_iff_mem P _ _ _ _ S (by simp [hS]),
    mem_adviceParts_humidity P _ _ _ _ S hS, mem_pushHumidity]
  simp only [finiteOrNull_eq_some]

theorem contains_rain_iff (P : Platform)
    (tempInput humidityInput rainChanceInput : JSValue) (timezone : String) (S : String)
    (hS : S ∈ rainSentences) :
    containsSentence (getSeasonAdvice P tempInput humidityInput rainChanceInput timezone) S ↔
      ∃ r, rainChanceInput = JSValue.number r ∧
        ((60 ≤ r ∧ S = umbrellaSentence) ∨ (30 ≤ r ∧ r < 60 ∧ S = lightShowersSentence) ∨
          (r < 30 ∧ S = lowRainSentence)) := by
  rw [contains_iff_mem P _ _ _ _ S (by simp [hS]),
    mem_adviceParts_rain P _ _ _ _ S hS, mem_pushRain]
  simp only [finiteOrNull_eq_some]

theorem isFinite_iff (v : JSValue) : v.isFinite = true ↔ ∃ q, v = JSValue.number q := by
  cases v <;> simp [JSValue.isFinite]

/-- C3: the advice contains the heat sentence iff the temperature is a finite number `t` with
`t >= 38`, the cold sentence iff `t <= 10`, the warm sentence iff `28 <= t < 38`, the
comfortable sentence iff `10 < t < 28`; it contains exactly one of the four temperature
sentences iff the temperature input is a finite number, and none of them otherwise; and of the
parts joined into the text exactly one, respectively none, is a temperature sentence; this for
every month, humidity and rain chance. -/
theorem getSeasonAdvice_temperature_partition (P : Platform)
    (tempInput humidityInput rainChanceInput : JSValue) (timezone : String) :
    (containsSentence (getSeasonAdvice P tempInput humidityInput rainChanceInput timezone)
        heatSentence ↔ ∃ t, tempInput = JSValue.number t ∧ 38 ≤ t) ∧
      (containsSentence (getSeasonAdvice P tempInput humidityInput rainChanceInput timezone)
        coldSentence ↔ ∃ t, tempInput = JSValue.number t ∧ t ≤ 10) ∧
      (containsSentence (getSeasonAdvice P tempInput humidityInput rainChanceInput timezone)
        warmSentence ↔ ∃ t, tempInput = JSValue.number t ∧ 28 ≤ t ∧ t < 38) ∧
      (containsSentence (getSeasonAdvice P tempInput humidityInput rainChanceInput timezone)
        comfortableSentence ↔ ∃ t, tempInput = JSValue.number t ∧ 10 < t ∧ t < 28) ∧
      (tempInput.isFinite = true ↔
        ∃! S, S ∈ temperatureSentences ∧
          containsSentence
            (getSeasonAdvice P tempInput humidityInput rainChanceInput timezone) S) ∧
      (tempInput.isFinite = false →
        ∀ S ∈ temperatureSentences,
          ¬ containsSentence
            (getSeasonAdvice P tempInput humidityInput rainChanceInput timezone) S) ∧
      (adviceParts P tempInput humidityInput rainChanceInput timezone).countP
          (fun p => decide (p ∈ temperatureSentences)) =
        (if tempInput.isFinite then 1 else 0) := by
  have key := contains_temperature_iff P tempInput humidityInput rainChanceInput timezone
  refine ⟨?_, ?_, ?_, ?_, ?_, ?_,
    count_temperature_parts P tempInput humidityInput rainChanceInput timezone⟩
  · rw [key heatSentence (by simp [temperatureSentences])]
    simp [heatSentence, coldSentence, warmSentence, comfortableSentence]
  · rw [key coldSentence (by simp [temperatureSentences])]
    simp [heatSentence, coldSentence, warmSentence, comfortableSentence]
  · rw [key warmSentence (by simp [temperatureSentences])]
    simp [heatSentence, coldSentence, warmSentence, comfortableSentence]
  · rw [key comfortableSentence (by simp [temperatureSentences])]
    simp [heatSentence, coldSentence, warmSentence, comfortableSentence]
  · constructor
    · intro hfin
      obtain ⟨t, rfl⟩ := (isFinite_iff tempInput).mp hfin
      have hex : ∃ S, S ∈ temperatureSentences ∧
          ((38 ≤ t ∧ S = heatSentence) ∨ (t ≤ 10 ∧ S = coldSentence) ∨
            (28 ≤ t ∧ t < 38 ∧ S = warmSentence) ∨
            (10 < t ∧ t < 28 ∧ S = comfortableSentence)) := by
        by_cases h1 : 38 ≤ t
        · exact ⟨heatSentence, by simp [temperatureSentences], Or.inl ⟨h1, rfl⟩⟩
        · by_cases h2 : t ≤ 10
          · exact ⟨coldSentence, by simp [temperatureSentences], Or.inr (Or.inl ⟨h2, rfl⟩)⟩
          · by_cases h3 : 28 ≤ t
            · exact ⟨warmSentence, by simp [temperatureSentences],
                Or.inr (Or.inr (Or.inl ⟨h3, by linarith, rfl⟩))⟩
            · exact ⟨comfortableSentence, by simp [temperatureSentences],
                Or.inr (Or.inr (Or.inr ⟨by linarith, by linarith, rfl⟩))⟩
      obtain ⟨S, hS, hcond⟩ := hex
      refine ⟨S, ⟨hS, (key S hS).mpr ⟨t, rfl, hcond⟩⟩, ?_⟩
      rintro S2 ⟨hS2, hc2⟩
      obtain ⟨t2, ht2, hcond2⟩ := (key S2 hS2).mp hc2
      have ht : t2 = t := by
        have := ht2
        simp only [JSValue.number.injEq] at this
        exact this.symm
      subst ht
      rcases hcond with ⟨a, rfl⟩ | ⟨a, rfl⟩ | ⟨a, a2, rfl⟩ | ⟨a, a2, rfl⟩ <;>
        rcases hcond2 with ⟨b, rfl⟩ | ⟨b, rfl⟩ | ⟨b, b2, rfl⟩ | ⟨b, b2, rfl⟩ <;>
        first | rfl | (exfalso; linarith)
    · rintro ⟨S, ⟨hS, hc⟩, _⟩
      obtain ⟨t, ht, _⟩ := (key S hS).mp hc
      exact (isFinite_iff tempInput).mpr ⟨t, ht⟩
  · intro hfin S hS hc
    obtain ⟨t, ht, _⟩ := (key S hS).mp hc
    rw [ht] at hfin
    simp [JSValue.isFinite] at hfin

/-- C5: the advice contains the high-humidity sentence iff the humidity is a finite number
`>= 75`, the dry-air sentence iff it is a finite number `<= 35`, never both, and neither of the
two when the humidity is strictly between 35 and 75 or is not a finite number. -/
theorem getSeasonAdvice_humidity (P : Platform)
    (tempInput humidityInput rainChanceInput : JSValue) (timezone : String) :
    (containsSentence (getSeasonAdvice P tempInput humidityInput rainChanceInput timezone)
        humidSentence ↔ ∃ h, humidityInput = JSValue.number h ∧ 75 ≤ h) ∧
      (containsSentence (getSeasonAdvice P tempInput humidityInput rainChanceInput timezone)
        dryAirSentence ↔ ∃ h, humidityInput = JSValue.number h ∧ h ≤ 35) ∧
      ¬ (containsSentence (getSeasonAdvice P tempInput humidityInput rainChanceInput timezone)
          humidSentence ∧
        containsSentence (getSeasonAdvice P tempInput humidityInput rainChanceInput timezone)
          dryAirSentence) ∧
      ((humidityInput.isFinite = false ∨
          ∃ h, humidityInput = JSValue.number h ∧ 35 < h ∧ h < 75) →
        ∀ S ∈ humiditySentences,
          ¬ containsSentence
            (getSeasonAdvice P tempInput humidityInput rainChanceInput timezone) S) := by
  have key := contains_humidity_iff P tempInput humidityInput rainChanceInput timezone
  have h1 : containsSentence
      (getSeasonAdvice P tempInput humidityInput rainChanceInput timezone) humidSentence ↔
      ∃ h, humidityInput = JSValue.number h ∧ 75 ≤ h := by
    rw [key humidSentence (by simp [humiditySentences])]
    simp [humidSentence, dryAirSentence]
  have h2 : containsSentence
      (getSeasonAdvice P tempInput humidityInput rainChanceInput timezone) dryAirSentence ↔
      ∃ h, humidityInput = JSValue.number h ∧ h ≤ 35 := by
    rw [key dryAirSentence (by simp [humiditySentences])]
    simp [humidSentence, dryAirSentence]
  refine ⟨h1, h2, ?_, ?_⟩
  · rintro ⟨ha, hb⟩
    obtain ⟨x, hx, hx75⟩ := h1.mp ha
    obtain ⟨y, hy, hy35⟩ := h2.mp hb
    rw [hx] at hy
    simp only [JSValue.number.injEq] at hy
    subst hy
    linarith
  · intro hcase S hS hc
    obtain ⟨x, hx, hcond⟩ := (key S hS).mp hc
    rcases hcase with hfin | ⟨y, hy, hlo, hhi⟩
    · rw [hx] at hfin
      simp [JSValue.isFinite] at hfin
    · rw [hx] at hy
      simp only [JSValue.number.injEq] at hy
      subst hy
      rcases hcond with ⟨a, _⟩ | ⟨a, _⟩ <;> linarith

theorem pushRain_singleton (rainChance : Option ℚ) (p : String)
    (hp : p ∈ pushRain rainChance []) : pushRain rainChance [] = [p] := by
  unfold pushRain at hp ⊢
  cases rainChance with
  | none => simp at hp
  | some r =>
    simp only [List.nil_append] at hp ⊢
    split_ifs at hp ⊢ <;> simp at hp <;> rw [hp]

/-- The last of at least two joined parts is a suffix of the joined text. -/
theorem suffix_join_concat (front : List String) (p : String) :
    p.data <:+ (" ".intercalate (front ++ [p])).data := by
  by_cases hl : front = []
  · subst hl
    simp [String.intercalate, String.intercalate.go]
  · rw [intercalate_concat _ _ _ hl]
    simp only [String.data_append]
    exact List.suffix_append _ _

theorem ends_with_rain_iff (P : Platform)
    (tempInput humidityInput rainChanceInput : JSValue) (timezone : String) (S : String)
    (hS : S ∈ rainSentences) :
    endsWithSentence (getSeasonAdvice P tempInput humidityInput rainChanceInput timezone) S ↔
      containsSentence (getSeasonAdvice P tempInput humidityInput rainChanceInput timezone) S := by
  constructor
  · intro h
    exact List.IsSuffix.isInfix h
  · intro h
    rw [contains_iff_mem P _ _ _ _ S (by simp [hS]),
      mem_adviceParts_rain P _ _ _ _ S hS] at h
    unfold endsWithSentence getSeasonAdvice
    rw [adviceParts_eq, pushRain_singleton _ S h]
    exact suffix_join_concat _ S

/-- C4: for a finite rain chance `r` the advice ends with exactly one rain sentence: the
umbrella sentence iff `r >= 60`, the light-showers sentence iff `30 <= r < 60`, the
low-chance sentence iff `r < 30`; exactly one of the three is contained in the advice, it is
the one the advice ends with, and exactly one of the joined parts is a rain sentence.  When the rain chance input is not a finite number, none of the
three is contained in the advice. -/
theorem getSeasonAdvice_rain (P : Platform) (tempInput humidityInput : JSValue)
    (timezone : String) :
    (∀ r : ℚ,
      (endsWithSentence
          (getSeasonAdvice P tempInput humidityInput (JSValue.number r) timezone)
          umbrellaSentence ↔ 60 ≤ r) ∧
      (endsWithSentence
          (getSeasonAdvice P tempInput humidityInput (JSValue.number r) timezone)
          lightShowersSentence ↔ 30 ≤ r ∧ r < 60) ∧
      (endsWithSentence
          (getSeasonAdvice P tempInput humidityInput (JSValue.number r) timezone)
          lowRainSentence ↔ r < 30) ∧
      (∃! S, S ∈ rainSentences ∧
        containsSentence
          (getSeasonAdvice P tempInput humidityInput (JSValue.number r) timezone) S) ∧
      (∀ S ∈ rainSentences,
        containsSentence
            (getSeasonAdvice P tempInput humidityInput (JSValue.number r) timezone) S →
          endsWithSentence
            (getSeasonAdvice P tempInput humidityInput (JSValue.number r) timezone) S) ∧
      (adviceParts P tempInput humidityInput (JSValue.number r) timezone).countP
          (fun p => decide (p ∈ rainSentences)) = 1) ∧
      (∀ v : JSValue, v.isFinite = false →
        ∀ S ∈ rainSentences,
          ¬ containsSentence (getSeasonAdvice P tempInput humidityInput v timezone) S) := by
  constructor
  · intro r
    have key := contains_rain_iff P tempInput humidityInput (JSValue.number r) timezone
    have ends := ends_with_rain_iff P tempInput humidityInput (JSValue.number r) timezone
    refine ⟨?_, ?_, ?_, ?_, ?_,
      by rw [count_rain_parts]; rfl⟩
    · rw [ends _ (by simp [rainSentences]), key _ (by simp [rainSentences])]
      simp [umbrellaSentence, lightShowersSentence, lowRainSentence]
    · rw [ends _ (by simp [rainSentences]), key _ (by simp [rainSentences])]
      simp [umbrellaSentence, lightShowersSentence, lowRainSentence]
    · rw [ends _ (by simp [rainSentences]), key _ (by simp [rainSentences])]
      simp [umbrellaSentence, lightShowersSentence, lowRainSentence]
    · have hex : ∃ S, S ∈ rainSentences ∧
          ((60 ≤ r ∧ S = umbrellaSentence) ∨ (30 ≤ r ∧ r < 60 ∧ S = lightShowersSentence) ∨
            (r < 30 ∧ S = lowRainSentence)) := by
        by_cases h1 : 60 ≤ r
        · exact ⟨umbrellaSentence, by simp [rainSentences], Or.inl ⟨h1, rfl⟩⟩
        · by_cases h2 : 30 ≤ r
          · exact ⟨lightShowersSentence, by simp [rainSentences],
              Or.inr (Or.inl ⟨h2, by linarith, rfl⟩)⟩
          · exact ⟨lowRainSentence, by simp [rainSentences],
              Or.inr (Or.inr ⟨by linarith, rfl⟩)⟩
      obtain ⟨S, hS, hcond⟩ := hex
      refine ⟨S, ⟨hS, (key S hS).mpr ⟨r, rfl, hcond⟩⟩, ?_⟩
      rintro S2 ⟨hS2, hc2⟩
      obtain ⟨r2, hr2, hcond2⟩ := (key S2 hS2).mp hc2
      have hr : r2 = r := by
        have := hr2
        simp only [JSValue.number.injEq] at this
        exact this.symm
      subst hr
      rcases hcond with ⟨a, rfl⟩ | ⟨a, a2, rfl⟩ | ⟨a, rfl⟩ <;>
        rcases hcond2 with ⟨b, rfl⟩ | ⟨b, b2, rfl⟩ | ⟨b, rfl⟩ <;>
        first | rfl | (exfalso; linarith)
    · intro S hS hc
      exact (ends S hS).mpr hc
  · intro v hfin S hS hc
    obtain ⟨r, hr, _⟩ := (contains_rain_iff P tempInput humidityInput v timezone S hS).mp hc
    rw [hr] at hfin
    simp [JSValue.isFinite] at hfin

/-! ## The season sentence -/

theorem jsTrim_eq_empty_iff (s : String) :
    jsTrim s = "" ↔ ∀ c ∈ s.data, isTrimmed c = true := by
  unfold jsTrim
  constructor
  · intro h
    have h1 : (s.data.dropWhile isTrimmed).rdropWhile isTrimmed = [] := by
      have := congrArg String.data h
      simpa using this
    have h2 := List.rdropWhile_eq_nil_iff.mp h1
    by_cases hnil : s.data.dropWhile isTrimmed = []
    · exact List.dropWhile_eq_nil_iff.mp hnil
    · have hpos : 0 < (s.data.dropWhile isTrimmed).length := List.length_pos.mpr hnil
      have hnot := List.dropWhile_get_zero_not isTrimmed s.data hpos
      exact absurd (h2 _ (List.get_mem _ _ _)) hnot
  · intro h
    rw [List.dropWhile_eq_nil_iff.mpr h]
    rfl

theorem setLoadingState_false_button (dom : Dom) :
    (setLoadingState false dom).buttonDisabled = false ∧
      (setLoadingState false dom).buttonText = "Get Weather" := by
  simp [setLoadingState]

/-- The handler on a city that trims to the empty string: the early return of line 24. -/
theorem submitHandler_of_empty (P : Platform) (N : Network) (dom : Dom)
    (hcity : jsTrim dom.cityValue = "") :
    submitHandler P N dom =
      ({ dom with cardHidden := true, statusText := emptyCityText, cityFocused := true }, []) := by
  unfold submitHandler
  simp [hcity]

/-- C9: when the city field is empty or holds only white space, the handler issues no network
request, leaves the card hidden, shows the prompt of line 22 and leaves the button untouched:
the final page is the initial one with the card hidden, the prompt as status and the focus on
the city field. -/
theorem submitHandler_blank_city (P : Platform) (N : Network) (dom : Dom)
    (hblank : ∀ c ∈ dom.cityValue.data, isTrimmed c = true) :
    (submitHandler P N dom).2 = [] ∧
      (submitHandler P N dom).1.cardHidden = true ∧
      (submitHandler P N dom).1.statusText = emptyCityText ∧
      (submitHandler P N dom).1.buttonDisabled = dom.buttonDisabled ∧
      (submitHandler P N dom).1.buttonText = dom.buttonText ∧
      (submitHandler P N dom).1 =
        { dom with cardHidden := true, statusText := emptyCityText, cityFocused := true } := by
  have hcity : jsTrim dom.cityValue = "" := (jsTrim_eq_empty_iff _).mpr hblank
  rw [submitHandler_of_empty P N dom hcity]
  exact ⟨rfl, rfl, rfl, rfl, rfl, rfl⟩

theorem submitHandler_blank_city_witness :
    (∀ c ∈ blankDom.cityValue.data, isTrimmed c = true) ∧
      (submitHandler samplePlatform noCityNetwork blankDom).2 = [] ∧
      (submitHandler samplePlatform noCityNetwork blankDom).1.cardHidden = true :=
  ⟨by decide,
    (submitHandler_blank_city samplePlatform noCityNetwork blankDom (by decide)).1,
    (submitHandler_blank_city samplePlatform noCityNetwork blankDom (by decide)).2.1⟩

theorem fetchLocation_requests (N : Network) (city : String) :
    (fetchLocation N city).1 = [geocodingRequest city] := rfl

theorem fetchForecast_requests (P : Platform) (N : Network) (location : Location) :
    (fetchForecast P N location).1 = [forecastRequest location] := rfl

/-- When `fetchLocation` returns: the response is ok, its body parses and has a first result,
and the location is read from that result. -/
theorem fetchLocation_ok_iff (N : Network) (city : String) (location : Location) :
    (fetchLocation N city).2 = Except.ok location ↔
      ∃ data r rs, N.fetch (geocodingRequest city) = Fetched.response true (some data) ∧
        data.results = some (r :: rs) ∧
        location =
          { latitude := r.latitude
            longitude := r.longitude
            name := r.name.getD city
            country := r.country.getD ""
            timezone := r.timezone.getD "UTC" } := by
  unfold fetchLocation
  simp only []
  cases hf : N.fetch (geocodingRequest city) with
  | rejected => simp
  | response ok json =>
    cases ok with
    | false => simp
    | true =>
      cases json with
      | none => simp
      | some data =>
        cases hr : data.results with
        | none => simp [hr]
        | some results =>
          cases results with
          | nil => simp [hr]
          | cons r rs =>
            simp only [hr, Bool.not_true, Bool.false_eq_true, if_false, Except.ok.injEq,
              Fetched.response.injEq, true_and, Option.some.injEq]
            constructor
            · intro h
              exact ⟨data, r, rs, rfl, hr, h.symm⟩
            · rintro ⟨data2, r2, rs2, hd, hr2, hloc⟩
              subst hd
              rw [hr] at hr2
              simp only [Option.some.injEq, List.cons.injEq] at hr2
              obtain ⟨rfl, rfl⟩ := hr2
              exact hloc.symm

theorem tryBlock_location_error (P : Platform) (N : Network) (city : String) (dom : Dom)
    (e : JSError) (h : (fetchLocation N city).2 = Except.error e) :
    tryBlock P N city dom = ({ dom with statusText := apologyText }, [geocodingRequest city]) := by
  unfold tryBlock
  have h1 : fetchLocation N city = ([geocodingRequest city], Except.error e) :=
    Prod.ext (fetchLocation_requests N city) h
  rw [h1]

theorem tryBlock_forecast_error (P : Platform) (N : Network) (city : String) (dom : Dom)
    (location : Location) (e : JSError)
    (h : (fetchLocation N city).2 = Except.ok location)
    (h2 : (fetchForecast P N location).2 = Except.error e) :
    tryBlock P N city dom =
      ({ dom with statusText := apologyText },
        [geocodingRequest city, forecastRequest location]) := by
  unfold tryBlock
  have h1 : fetchLocation N city = ([geocodingRequest city], Except.ok location) :=
    Prod.ext (fetchLocation_requests N city) h
  have h3 : fetchForecast P N location = ([forecastRequest location], Except.error e) :=
    Prod.ext (fetchForecast_requests P N location) h2
  rw [h1]
  simp only []
  rw [h3]
  rfl

theorem tryBlock_success (P : Platform) (N : Network) (city : String) (dom : Dom)
    (location : Location) (forecast : Forecast)
    (h : (fetchLocation N city).2 = Except.ok location)
    (h2 : (fetchForecast P N location).2 = Except.ok forecast) :
    tryBlock P N city dom =
      ({ populateWeatherCard P forecast dom with
          statusText := successText location, cardHidden := false },
        [geocodingRequest city, forecastRequest location]) := by
  unfold tryBlock
  have h1 : fetchLocation N city = ([geocodingRequest city], Except.ok location) :=
    Prod.ext (fetchLocation_requests N city) h
  have h3 : fetchForecast P N location = ([forecastRequest location], Except.ok forecast) :=
    Prod.ext (fetchForecast_requests P N location) h2
  rw [h1]
  simp only []
  rw [h3]
  rfl

/-- The page as the `try` block finds it: card hidden, button disabled, loading status. -/
theorem submitHandler_of_city (P : Platform) (N : Network) (dom : Dom)
    (hcity : jsTrim dom.cityValue ≠ "") :
    submitHandler P N dom =
      (setLoadingState false
          (tryBlock P N (jsTrim dom.cityValue)
            { setLoadingState true { dom with cardHidden := true, statusText := "" } with
              statusText := loadingText }).1,
        (tryBlock P N (jsTrim dom.cityValue)
            { setLoadingState true { dom with cardHidden := true, statusText := "" } with
              statusText := loadingText }).2) := by
  unfold submitHandler
  simp only [hcity, if_false]

/-- The three ways the handler can finish on a non-empty city. -/
theorem submitHandler_cases (P : Platform) (N : Network) (dom : Dom)
    (hcity : jsTrim dom.cityValue ≠ "") :
    (∃ e, (fetchLocation N (jsTrim dom.cityValue)).2 = Except.error e ∧
        submitHandler P N dom =
          (setLoadingState false { loadingPage dom with statusText := apologyText },
            [geocodingRequest (jsTrim dom.cityValue)])) ∨
      (∃ location e, (fetchLocation N (jsTrim dom.cityValue)).2 = Except.ok location ∧
        (fetchForecast P N location).2 = Except.error e ∧
        submitHandler P N dom =
          (setLoadingState false { loadingPage dom with statusText := apologyText },
            [geocodingRequest (jsTrim dom.cityValue), forecastRequest location])) ∨
      (∃ location forecast, (fetchLocation N (jsTrim dom.cityValue)).2 = Except.ok location ∧
        (fetchForecast P N location).2 = Except.ok forecast ∧
        submitHandler P N dom =
          (setLoadingState false
              { populateWeatherCard P forecast (loadingPage dom) with
                statusText := successText location, cardHidden := false },
            [geocodingRequest (jsTrim dom.cityValue), forecastRequest location])) := by
  rw [submitHandler_of_city P N dom hcity]
  change (∃ e, _ ∧ (setLoadingState false
      (tryBlock P N (jsTrim dom.cityValue) (loadingPage dom)).1,
      (tryBlock P N (jsTrim dom.cityValue) (loadingPage dom)).2) = _) ∨
    (∃ location e, _ ∧ _ ∧ (setLoadingState false
      (tryBlock P N (jsTrim dom.cityValue) (loadingPage dom)).1,
      (tryBlock P N (jsTrim dom.cityValue) (loadingPage dom)).2) = _) ∨
    (∃ location forecast, _ ∧ _ ∧ (setLoadingState false
      (tryBlock P N (jsTrim dom.cityValue) (loadingPage dom)).1,
      (tryBlock P N (jsTrim dom.cityValue) (loadingPage dom)).2) = _)
  cases hloc : (fetchLocation N (jsTrim dom.cityValue)).2 with
  | error e =>
    left
    exact ⟨e, rfl, by rw [tryBlock_location_error P N _ _ e hloc]⟩
  | ok location =>
    right
    cases hfc : (fetchForecast P N location).2 with
    | error e =>
      left
      exact ⟨location, e, rfl, hfc, by rw [tryBlock_forecast_error P N _ _ location e hloc hfc]⟩
    | ok forecast =>
      right
      exact ⟨location, forecast, rfl, hfc, by rw [tryBlock_success P N _ _ location forecast hloc hfc]⟩

/-- The requests of a submission whose geocoding response has a first result. -/
theorem requests_of_first_result (P : Platform) (N : Network) (dom : Dom)
    (hcity : jsTrim dom.cityValue ≠ "") (data : Payload) (r : GeoResult) (rs : List GeoResult)
    (hfetch : N.fetch (geocodingRequest (jsTrim dom.cityValue)) =
      Fetched.response true (some data))
    (hres : data.results = some (r :: rs)) :
    (submitHandler P N dom).2 =
      [geocodingRequest (jsTrim dom.cityValue),
        { endpoint := FORECAST_ENDPOINT
          params :=
            [("latitude", r.latitude), ("longitude", r.longitude),
             ("current", JSValue.string "temperature_2m,relative_humidity_2m,precipitation"),
             ("hourly", JSValue.string "precipitation_probability"),
             ("forecast_days", JSValue.string "1"),
             ("timezone", JSValue.string (r.timezone.getD "UTC"))] }] := by
  have hloc := (fetchLocation_ok_iff N (jsTrim dom.cityValue) _).mpr
    ⟨data, r, rs, hfetch, hres, rfl⟩
  rcases submitHandler_cases P N dom hcity with
    ⟨e, hloc2, _⟩ | ⟨location, e, hloc2, _, heq⟩ | ⟨location, forecast, hloc2, _, heq⟩
  · rw [hloc] at hloc2
    exact absurd hloc2 (by simp)
  · rw [hloc] at hloc2
    simp only [Except.ok.injEq] at hloc2
    subst hloc2
    rw [heq]
    rfl
  · rw [hloc] at hloc2
    simp only [Except.ok.injEq] at hloc2
    subst hloc2
    rw [heq]
    rfl

/-- The requests of a submission whose geocoding step fails. -/
theorem requests_of_no_result (P : Platform) (N : Network) (dom : Dom)
    (hcity : jsTrim dom.cityValue ≠ "")
    (hnone : ¬ ∃ data r rs,
      N.fetch (geocodingRequest (jsTrim dom.cityValue)) = Fetched.response true (some data) ∧
      data.results = some (r :: rs)) :
    (submitHandler P N dom).2 = [geocodingRequest (jsTrim dom.cityValue)] := by
  rcases submitHandler_cases P N dom hcity with
    ⟨e, _, heq⟩ | ⟨location, e, hloc, _, _⟩ | ⟨location, forecast, hloc, _, _⟩
  · rw [heq]
  · obtain ⟨data, r, rs, hfetch, hres, _⟩ := (fetchLocation_ok_iff _ _ _).mp hloc
    exact absurd ⟨data, r, rs, hfetch, hres⟩ hnone
  · obtain ⟨data, r, rs, hfetch, hres, _⟩ := (fetchLocation_ok_iff _ _ _).mp hloc
    exact absurd ⟨data, r, rs, hfetch, hres⟩ hnone

/-- C2 as stated fails: a submission with a blank city issues no request, and one whose city
is not found issues the geocoding request only; and when the first result carries no time
zone, the forecast request is sent with "UTC", which is not in the geocoding response. -/
theorem submitHandler_not_always_two_requests :
    (submitHandler samplePlatform (currentOnlyNetwork 3) blankDom).2 = [] ∧
      (submitHandler samplePlatform noCityNetwork sampleDom).2 = [geocodingRequest "Delhi"] ∧
      (submitHandler samplePlatform (currentOnlyNetwork 3) blankDom).2.length ≠ 2 ∧
      (submitHandler samplePlatform noCityNetwork sampleDom).2.length ≠ 2 ∧
      sampleResult.timezone = none ∧
      (submitHandler samplePlatform (currentOnlyNetwork 3) sampleDom).2 =
        [geocodingRequest "Delhi", forecastRequest sampleLocation] ∧
      sampleLocation.timezone = "UTC" := by
  have h1 : (submitHandler samplePlatform (currentOnlyNetwork 3) blankDom).2 = [] := by
    rw [submitHandler_of_empty samplePlatform (currentOnlyNetwork 3) blankDom (by decide)]
  have hcity : jsTrim sampleDom.cityValue = "Delhi" := by decide
  have h2 : (submitHandler samplePlatform noCityNetwork sampleDom).2 =
      [geocodingRequest "Delhi"] := by
    rw [requests_of_no_result samplePlatform noCityNetwork sampleDom (by decide), hcity]
    rintro ⟨data, r, rs, hfetch, hres⟩
    simp only [noCityNetwork, Fetched.response.injEq, true_and, Option.some.injEq] at hfetch
    rw [← hfetch] at hres
    exact absurd hres (by simp)
  have h3 : (submitHandler samplePlatform (currentOnlyNetwork 3) sampleDom).2 =
      [geocodingRequest "Delhi", forecastRequest sampleLocation] := by
    rw [requests_of_first_result samplePlatform (currentOnlyNetwork 3) sampleDom (by decide)
      { results := some [sampleResult], current := none, hourly := none } sampleResult []
      (by decide) rfl, hcity]
    rfl
  refine ⟨h1, h2, ?_, ?_, rfl, h3, rfl⟩
  · rw [h1]; decide
  · rw [h2]; decide

/-- C2, amended: a submission issues at most two requests, in this order.  None when the
trimmed city is empty.  Otherwise the geocoding request for the trimmed city; it is followed by
the forecast request exactly when the geocoding response is ok and has a first result, and that
request carries the latitude and longitude of that result and its time zone, or "UTC" when the
result has none. -/
theorem submitHandler_requests (P : Platform) (N : Network) (dom : Dom) :
    (jsTrim dom.cityValue = "" → (submitHandler P N dom).2 = []) ∧
      (jsTrim dom.cityValue ≠ "" →
        (∀ data r rs,
          N.fetch (geocodingRequest (jsTrim dom.cityValue)) =
            Fetched.response true (some data) →
          data.results = some (r :: rs) →
          (submitHandler P N dom).2 =
            [geocodingRequest (jsTrim dom.cityValue),
              { endpoint := FORECAST_ENDPOINT
                params :=
                  [("latitude", r.latitude), ("longitude", r.longitude),
                   ("current",
                     JSValue.string "temperature_2m,relative_humidity_2m,precipitation"),
                   ("hourly", JSValue.string "precipitation_probability"),
                   ("forecast_days", JSValue.string "1"),
                   ("timezone", JSValue.string (r.timezone.getD "UTC"))] }]) ∧
        ((¬ ∃ data r rs,
            N.fetch (geocodingRequest (jsTrim dom.cityValue)) =
              Fetched.response true (some data) ∧
            data.results = some (r :: rs)) →
          (submitHandler P N dom).2 = [geocodingRequest (jsTrim dom.cityValue)])) := by
  constructor
  · intro hcity
    rw [submitHandler_of_empty P N dom hcity]
  · intro hcity
    exact ⟨fun data r rs hfetch hres =>
        requests_of_first_result P N dom hcity data r rs hfetch hres,
      fun hnone => requests_of_no_result P N dom hcity hnone⟩

/-! ## Where the rain chance comes from -/

end Weather
